import Mathlib

/-!
Verification development for the Perplexity-style chat page
(`src/Chatbot/Agent/Perplexity/app/page.tsx`).

The file shallowly embeds the message store, the persistence layer and the
response simulator of that page as executable Lean definitions, and proves
the spec's claims about them.

Modelling conventions:
* JavaScript strings are Lean `String`s; `String.prototype.includes`,
  `toLowerCase` and `trim` are modelled by the executable functions
  `jsIncludes`, `jsToLowerCase` and `jsTrim` below.
* `Date` time values are natural numbers (milliseconds since the epoch);
  the serialization of a `Date` through `JSON.stringify` / `new Date(s)`
  is modelled by the decimal codec `natDecimal` / `decodeDate`, which
  round-trips exactly — the same precision behaviour as the ISO string
  emitted by `Date.prototype.toJSON`, whose millisecond field is recovered
  exactly by `new Date`.
* `JSON.stringify` / `JSON.parse` are modelled at the level of structured
  JSON values (`Json` below): the localStorage slot holds `Option Json`
  (`none` = key absent).  A thrown JavaScript exception is an
  `Except.error`.
* The page's React state (`messages`, `inputValue`, `isTyping`) together
  with the localStorage slot form the `Store` state record; each `useState`
  setter call becomes a state update, and the persistence `useEffect`
  (source lines 161-165) is applied where React would run it, after a
  `setMessages` call.
-/

/-- One step of JavaScript `String.prototype.includes`: does `pat` occur at
the very beginning of the character list? -/
def firstMatches : List Char → List Char → Bool
  | [], _ => true
  | _ :: _, [] => false
  | a :: as, b :: bs => a == b && firstMatches as bs

/-- Does `pat` occur as a contiguous substring of `s`? -/
def occursIn (pat : List Char) : List Char → Bool
  | [] => pat.isEmpty
  | c :: rest => firstMatches pat (c :: rest) || occursIn pat rest

/-- Model of JavaScript `s.includes(pat)`: raw substring containment. -/
def jsIncludes (s pat : String) : Bool :=
  occursIn pat.data s.data

/-- Model of JavaScript `s.toLowerCase()` (ASCII case folding). -/
def jsToLowerCase (s : String) : String :=
  String.mk (s.data.map Char.toLower)

/-- Model of JavaScript `s.trim()`: strip whitespace from both ends. -/
def jsTrim (s : String) : String :=
  String.mk (((s.data.dropWhile Char.isWhitespace).reverse.dropWhile
    Char.isWhitespace).reverse)

/-- Structured JSON values: the contents of the localStorage slot, as seen
through `JSON.parse` / produced by `JSON.stringify`. -/
inductive Json where
  | null : Json
  | bool : Bool → Json
  | num : Int → Json
  | str : String → Json
  | arr : List Json → Json
  | obj : List (String × Json) → Json

/-- The `role` field of a `Message` (source lines 12-17). -/
inductive Role where
  | user : Role
  | assistant : Role
deriving DecidableEq

/-- The `Message` interface (source lines 12-17); `timestamp` is a `Date`
time value in milliseconds. -/
structure Message where
  id : String
  role : Role
  content : String
  timestamp : Nat
deriving DecidableEq

/-- The string a `Role` serializes to. -/
def roleToString : Role → String
  | .user => "user"
  | .assistant => "assistant"

/-- The character for a decimal digit value. -/
def digitChar (d : Nat) : Char := Char.ofNat (48 + d)

/-- The decimal digit value of a character. -/
def charDigit (c : Char) : Nat := c.toNat - 48

/-- Is the character an ASCII decimal digit? -/
def isDigitChar (c : Char) : Bool := 48 ≤ c.toNat && c.toNat < 58

/-- Decimal rendering of a natural number (most significant digit first).
Models the number-to-string renderings the page relies on:
`Date.now().toString()` for message ids, and the timestamp component of
`JSON.stringify`'s `Date` serialization. -/
def natDecimal (t : Nat) : String :=
  if t = 0 then "0" else String.mk (((Nat.digits 10 t).map digitChar).reverse)

/-- Model of `new Date(s)` applied to a serialized timestamp string:
recovers the exact millisecond value carried by the string; `none` models
an Invalid Date. -/
def decodeDate (s : String) : Option Nat :=
  if !s.data.isEmpty && s.data.all isDigitChar then
    some (Nat.ofDigits 10 ((s.data.map charDigit).reverse))
  else none

/-- The JSON object `JSON.stringify` produces for one `Message`. -/
def msgToJson (m : Message) : Json :=
  .obj [("id", .str m.id), ("role", .str (roleToString m.role)),
        ("content", .str m.content), ("timestamp", .str (natDecimal m.timestamp))]

/-- Model of `JSON.stringify(messages)` (source line 163). -/
def stringifyMessages (ms : List Message) : Json :=
  .arr (ms.map msgToJson)

/-- JavaScript property lookup on a parsed JSON object (`undefined` is
`none`). -/
def getField (fields : List (String × Json)) (k : String) : Option Json :=
  (fields.find? (fun f => f.1 == k)).map (fun f => f.2)

/-- Model of `new Date(x)` applied to a parsed JSON field (`none` argument
models `undefined`).  Result `none` models an Invalid Date; arrays and
objects are approximated as Invalid. -/
def jsDateOf : Option Json → Option Nat
  | none => none
  | some (.str s) => decodeDate s
  | some (.num n) => if 0 ≤ n then some n.toNat else none
  | some .null => some 0
  | some (.bool b) => some (if b then 1 else 0)
  | some (.arr _) => none
  | some (.obj _) => none

/-- The object built by the load reviver
`(msg) => (\x7b ...msg, timestamp: new Date(msg.timestamp) \x7d)`
(source lines 152-155): the spread keeps the parsed field values as they
are, and only `timestamp` is rebuilt as a `Date`. -/
structure Revived where
  id : Option Json
  role : Option Json
  content : Option Json
  timestamp : Option Nat

/-- Revive one parsed array element as the load effect does.  Property
access on `null` throws a `TypeError`; on any other non-object it yields
`undefined` fields. -/
def reviveElem : Json → Except String Revived
  | .null => .error "TypeError: Cannot read properties of null"
  | .obj fs => .ok { id := getField fs "id", role := getField fs "role",
                     content := getField fs "content",
                     timestamp := jsDateOf (getField fs "timestamp") }
  | _ => .ok { id := none, role := none, content := none, timestamp := none }

/-- The load effect (source lines 149-158): read the persisted value under
the chat-history key; if absent, leave the message list empty; otherwise
`JSON.parse(savedMessages).map(reviver)`.  There is no `try`/`catch` in the
source, so a non-array parse result makes `.map` throw, and the exception
propagates to the caller (modelled as `Except.error`). -/
def loadMessages : Option Json → Except String (List Revived)
  | none => .ok []
  | some (.arr elems) => elems.mapM reviveElem
  | some _ => .error "TypeError: JSON.parse(savedMessages).map is not a function"

/-- What one in-memory `Message` looks like after a persist/load round
trip: the parsed string fields, and the exact millisecond timestamp. -/
def storedView (m : Message) : Revived :=
  { id := some (.str m.id), role := some (.str (roleToString m.role)),
    content := some (.str m.content), timestamp := some m.timestamp }

/-- The page state relevant to the claims: the three `useState` cells of
`ChatApp` that the message pipeline touches (source lines 141-143), plus
the localStorage slot for `"perplexity-chat-history"`. -/
structure Store where
  messages : List Message
  storage : Option Json
  isTyping : Bool
  inputValue : String

/-- The persistence `useEffect` (source lines 161-165): after `messages`
changes, write `JSON.stringify(messages)` to localStorage — but only when
the list is non-empty. -/
def persistEffect (s : Store) : Store :=
  if s.messages.length > 0 then
    { s with storage := some (stringifyMessages s.messages) }
  else s

/-- `setMessages((prev) => [...prev, m])` followed by the persistence
effect. -/
def appendMessage (s : Store) (m : Message) : Store :=
  persistEffect { s with messages := s.messages ++ [m] }

/-- A whole sequence of appends. -/
def appendAll (s : Store) (ms : List Message) : Store :=
  ms.foldl appendMessage s

/-- `clearChat` (source lines 574-577): `setMessages([])` and
`localStorage.removeItem("perplexity-chat-history")`; the persistence
effect then runs on the empty list and writes nothing back. -/
def clearChat (s : Store) : Store :=
  { s with messages := [], storage := none }

/-- The Programming template (source lines 188-217); the rendered text of
the template literal, with the two interpolations of the original user
message. -/
def programmingTemplate (u : String) : String :=
  "Great question about programming! Here\x27s what I can help you with:\n\n**" ++ u ++
  "**\n\n```javascript\n// Here\x27s a practical example\nfunction solveProblem(input) \x7b\n  // Process the input\n  const result = processData(input);\n  \n  // Return formatted result\n  return \x7b\n    success: true,\n    data: result,\n    timestamp: new Date().toISOString()\n  \x7d;\n\x7d\n\n// Usage example\nconst solution = solveProblem(\x22" ++ u ++
  "\x22);\nconsole.log(solution);\n```\n\n**Key considerations:**\n- **Best practices**: Always follow clean code principles\n- **Performance**: Consider optimization for larger datasets  \n- **Error handling**: Implement proper try-catch blocks\n- **Testing**: Write unit tests for reliability\n\nWould you like me to dive deeper into any specific aspect of this implementation?"

/-- The Math/Science template (source lines 229-262). -/
def mathScienceTemplate (u : String) : String :=
  "Let me help you with this mathematical/scientific concept:\n\n**Analysis of: \x22" ++ u ++
  "\x22**\n\nThe approach to solving this involves several key steps:\n\n1. **Problem identification**: Understanding the core question\n2. **Method selection**: Choosing the appropriate formula or approach\n3. **Calculation process**: Step-by-step solution\n4. **Verification**: Checking our results\n\n```python\n# Mathematical solution approach\nimport math\n\ndef solve_problem(parameters):\n    \x22\x22\x22\n    Solve the mathematical problem step by step\n    \x22\x22\x22\n    # Step 1: Parse input parameters\n    # Step 2: Apply relevant formulas\n    # Step 3: Calculate result\n    \n    result = perform_calculation(parameters)\n    return result\n\n# Example usage\nanswer = solve_problem(\x22" ++ u ++
  "\x22)\nprint(f\x22Solution: \x7banswer\x7d\x22)\n```\n\n> **Note**: This is a simplified example. Real-world applications may require more complex considerations.\n\nWould you like me to explain any specific part of this solution in more detail?"

/-- The Business/Strategy template (source lines 273-313). -/
def businessTemplate (u : String) : String :=
  "Excellent business question! Let me provide a strategic analysis:\n\n**Topic: \x22" ++ u ++
  "\x22**\n\n## Strategic Framework\n\n**1. Current Market Analysis**\n- Market size and growth potential\n- Competitive landscape assessment\n- Customer needs and pain points\n\n**2. Strategic Options**\n- **Option A**: Direct approach with immediate implementation\n- **Option B**: Phased rollout with market testing\n- **Option C**: Partnership-based strategy\n\n**3. Implementation Roadmap**\n```\nPhase 1: Research & Planning (Weeks 1-4)\n├── Market research\n├── Competitive analysis\n└── Resource allocation\n\nPhase 2: Development (Weeks 5-12)\n├── Product/service development\n├── Team building\n└── Initial testing\n\nPhase 3: Launch (Weeks 13-16)\n├── Go-to-market execution\n├── Performance monitoring\n└── Optimization\n```\n\n**Key Success Metrics:**\n- Customer acquisition cost (CAC)\n- Lifetime value (LTV)\n- Market penetration rate\n- Revenue growth\n\n*What specific aspect of this strategy would you like to explore further?*"

/-- The AI/Technology template (source lines 324-372). -/
def aiTemplate (u : String) : String :=
  "Fascinating topic about AI and technology! Here\x27s my analysis:\n\n**\x22" ++ u ++
  "\x22**\n\n## Current State of AI Technology\n\n**Large Language Models (LLMs)**\n- GPT-4, Claude, Gemini leading the space\n- Multimodal capabilities (text, image, code)\n- Reasoning and problem-solving improvements\n\n**Key Applications:**\n1. **Content Generation**: Writing, coding, creative work\n2. **Analysis & Research**: Data processing, insights\n3. **Automation**: Workflow optimization, decision support\n\n```python\n# AI Integration Example\nclass AIAssistant:\n    def __init__(self, model_type=\x22gpt-4\x22):\n        self.model = model_type\n        self.capabilities = [\n            \x22text_generation\x22,\n            \x22code_analysis\x22, \n            \x22problem_solving\x22,\n            \x22creative_tasks\x22\n        ]\n    \n    def process_query(self, query):\n        # Analyze query intent\n        intent = self.analyze_intent(query)\n        \n        # Generate contextual response\n        response = self.generate_response(intent, query)\n        \n        return response\n\n# Usage\nassistant = AIAssistant()\nresult = assistant.process_query(\x22" ++ u ++
  "\x22)\n```\n\n**Future Implications:**\n- Enhanced reasoning capabilities\n- Better multimodal understanding\n- More efficient and specialized models\n- Improved human-AI collaboration\n\n*What specific aspect of AI development interests you most?*"

/-- The Explanatory template (source lines 382-418). -/
def explanatoryTemplate (u : String) : String :=
  "Let me explain this concept clearly:\n\n**\x22" ++ u ++
  "\x22**\n\n## Comprehensive Explanation\n\n**Core Concept:**\nThe topic you\x27re asking about involves several interconnected elements that work together to create the overall phenomenon or system.\n\n**Key Components:**\n- **Foundation**: The basic principles that underlie this concept\n- **Mechanisms**: How the different parts interact and function\n- **Applications**: Real-world uses and implementations\n- **Implications**: Broader effects and consequences\n\n**Detailed Breakdown:**\n\n1. **Primary Factors**\n   - Direct causes and influences\n   - Immediate effects and outcomes\n\n2. **Secondary Considerations**\n   - Indirect relationships\n   - Long-term implications\n\n3. **Practical Examples**\n   - Real-world applications\n   - Case studies and scenarios\n\n> **Key Insight**: Understanding this concept requires looking at both the individual components and how they work together as a system.\n\n**Related Topics:**\n- Connected concepts you might find interesting\n- Further reading suggestions\n- Areas for deeper exploration\n\n*Would you like me to elaborate on any particular aspect of this explanation?*"

/-- The Design/Creative template (source lines 429-482). -/
def designTemplate (u : String) : String :=
  "Great design question! Let me share some insights:\n\n**Design Challenge: \x22" ++ u ++
  "\x22**\n\n## Design Thinking Approach\n\n**1. Empathize & Define**\n- User needs and pain points\n- Context and constraints\n- Success criteria\n\n**2. Ideate & Prototype**\n- Brainstorming solutions\n- Rapid prototyping\n- Iterative refinement\n\n```css\n/* Design System Example */\n:root \x7b\n  --primary-color: #4e8cff;\n  --secondary-color: #7da6ff;\n  --background: #1c1c1e;\n  --surface: #2c2c2e;\n  --text-primary: #e5e5e7;\n  --text-secondary: #a1a1a6;\n\x7d\n\n.design-component \x7b\n  background: var(--surface);\n  color: var(--text-primary);\n  border-radius: 12px;\n  padding: 16px;\n  transition: all 0.2s ease;\n\x7d\n\n.design-component:hover \x7b\n  transform: translateY(-2px);\n  box-shadow: 0 8px 25px rgba(0,0,0,0.15);\n\x7d\n```\n\n**Design Principles:**\n- **Clarity**: Clear visual hierarchy and information architecture\n- **Consistency**: Unified patterns and components\n- **Accessibility**: Inclusive design for all users\n- **Performance**: Optimized for speed and efficiency\n\n**Modern Trends:**\n- Minimalist interfaces with purposeful elements\n- Dark mode as a standard option\n- Micro-interactions for enhanced UX\n- Responsive design across all devices\n\n*What specific design challenge are you working on?*"

/-- The default catch-all template (source lines 486-532). -/
def defaultTemplate (u : String) : String :=
  "Thank you for your question about \x22" ++ u ++
  "\x22. Let me provide a thoughtful response:\n\n## Analysis & Insights\n\n**Understanding Your Question:**\nYou\x27ve raised an interesting point that touches on several important aspects worth exploring.\n\n**Key Considerations:**\n\n1. **Context & Background**\n   - Historical perspective and development\n   - Current state and recent changes\n   - Influencing factors and variables\n\n2. **Multiple Perspectives**\n   - Different viewpoints and approaches\n   - Pros and cons of various options\n   - Stakeholder considerations\n\n3. **Practical Implications**\n   - Real-world applications\n   - Potential outcomes and consequences\n   - Implementation considerations\n\n**Actionable Insights:**\n- **Short-term**: Immediate steps you can take\n- **Medium-term**: Strategic planning and development\n- **Long-term**: Future considerations and planning\n\n```\nFramework for Analysis:\n├── Problem Definition\n├── Research & Data Gathering\n├── Option Evaluation\n├── Decision Making\n└── Implementation & Review\n```\n\n> **Key Takeaway**: The most effective approach often involves considering multiple factors and adapting based on specific circumstances and goals.\n\n**Next Steps:**\n- Identify your specific priorities and constraints\n- Gather additional information if needed\n- Consider testing or piloting approaches\n- Plan for monitoring and adjustment\n\n*What aspect of this topic would you like to explore in more depth?*"

/-- The Programming branch condition (source lines 179-187). -/
def progCond (m : String) : Bool :=
  jsIncludes m "code" || jsIncludes m "programming" || jsIncludes m "javascript" ||
  jsIncludes m "python" || jsIncludes m "react" || jsIncludes m "css" ||
  jsIncludes m "html"

/-- The Math/Science branch condition (source lines 221-228). -/
def mathCond (m : String) : Bool :=
  jsIncludes m "math" || jsIncludes m "calculate" || jsIncludes m "formula" ||
  jsIncludes m "science" || jsIncludes m "physics" || jsIncludes m "chemistry"

/-- The Business/Strategy branch condition (source lines 266-272). -/
def bizCond (m : String) : Bool :=
  jsIncludes m "business" || jsIncludes m "strategy" || jsIncludes m "marketing" ||
  jsIncludes m "startup" || jsIncludes m "company"

/-- The AI/Technology branch condition (source lines 317-323). -/
def aiCond (m : String) : Bool :=
  jsIncludes m "ai" || jsIncludes m "artificial intelligence" ||
  jsIncludes m "machine learning" || jsIncludes m "technology" ||
  jsIncludes m "future"

/-- The Explanatory branch condition (source lines 376-381). -/
def explainCond (m : String) : Bool :=
  jsIncludes m "explain" || jsIncludes m "what is" || jsIncludes m "how does" ||
  jsIncludes m "why"

/-- The Design/Creative branch condition (source lines 422-428). -/
def designCond (m : String) : Bool :=
  jsIncludes m "design" || jsIncludes m "creative" || jsIncludes m "art" ||
  jsIncludes m "ui" || jsIncludes m "ux"

/-- The text produced by `simulateAssistantResponse` (source lines
176-532): lowercase the input, then walk the branch conditions in source
order; the first matching branch returns its template applied to the
original (non-lowercased) input. -/
def simulateResponseText (userMessage : String) : String :=
  let message := jsToLowerCase userMessage
  if progCond message then programmingTemplate userMessage
  else if mathCond message then mathScienceTemplate userMessage
  else if bizCond message then businessTemplate userMessage
  else if aiCond message then aiTemplate userMessage
  else if explainCond message then explanatoryTemplate userMessage
  else if designCond message then designTemplate userMessage
  else defaultTemplate userMessage

/-- `simulateAssistantResponse` (source lines 172-533): given the drawn
`Math.random()` sample, wait `800 + rand * 1500` milliseconds, then return
the keyword-selected text.  The pair records (delay, returned text). -/
def simulateAssistantResponse (userMessage : String) (rand : ℚ) : ℚ × String :=
  (800 + rand * 1500, simulateResponseText userMessage)

/-- `handleSendMessage` up to (and including) the call of the simulator
(source lines 535-548): reject blank input; otherwise append the user
message, clear the input field, raise the Awaiting-Response flag, and
start the simulator on the trimmed text.  The second component is the
argument the simulator is invoked with (`none` = not invoked);
`now` is the current `Date.now()` value in milliseconds. -/
def handleSendMessageStart (s : Store) (now : Nat) : Store × Option String :=
  if jsTrim s.inputValue = "" then (s, none)
  else
    let userMessage : Message :=
      { id := natDecimal now, role := Role.user,
        content := jsTrim s.inputValue, timestamp := now }
    let s1 := appendMessage s userMessage
    ({ s1 with inputValue := "", isTyping := true }, some (jsTrim s.inputValue))

/-- How the awaited simulator call ends: it resolves with a response text,
or it throws. -/
inductive SimOutcome where
  | success : String → SimOutcome
  | failure : SimOutcome

/-- The rest of `handleSendMessage` (source lines 549-564), run when the
awaited simulator call finishes: on success append the assistant message;
on failure only log (`console.error`); either way the `finally` block
clears the Awaiting-Response flag. -/
def handleSendMessageFinish (s : Store) (outcome : SimOutcome) (now : Nat) : Store :=
  match outcome with
  | .success response =>
      let assistantMessage : Message :=
        { id := natDecimal (now + 1), role := Role.assistant,
          content := response, timestamp := now }
      let s1 := appendMessage s assistantMessage
      { s1 with isTyping := false }
  | .failure => { s with isTyping := false }

/-- A submission attempt at the input surface (source lines 639-655): the
text field and the send button both carry `disabled=isTyping-dependent`
attributes, so while the Awaiting-Response flag is set no event reaches
`handleSendMessage`; otherwise the handler runs. -/
def submitAttempt (s : Store) (now : Nat) : Store × Option String :=
  if s.isTyping then (s, none)
  else handleSendMessageStart s now

/-- The topic categories named by the specification. -/
inductive Category where
  | programming : Category
  | mathScience : Category
  | business : Category
  | aiTech : Category
  | explanatory : Category
  | designCreative : Category
  | fallback : Category
deriving DecidableEq

/-- Specification-side keyword sets, one per category (the fallback has
none). -/
def specKeywords : Category → List String
  | .programming => ["code", "programming", "javascript", "python", "react", "css", "html"]
  | .mathScience => ["math", "calculate", "formula", "science", "physics", "chemistry"]
  | .business => ["business", "strategy", "marketing", "startup", "company"]
  | .aiTech => ["ai", "artificial intelligence", "machine learning", "technology", "future"]
  | .explanatory => ["explain", "what is", "how does", "why"]
  | .designCreative => ["design", "creative", "art", "ui", "ux"]
  | .fallback => []

/-- Specification-side fixed priority order of the categories. -/
def specPriority : List Category :=
  [.programming, .mathScience, .business, .aiTech, .explanatory, .designCreative]

/-- Does any keyword of the category occur in the lowercased input? -/
def categoryMatches (u : String) (c : Category) : Bool :=
  (specKeywords c).any (fun k => jsIncludes (jsToLowerCase u) k)

/-- Specification-side category selection, following the spec's words:
test the categories in the fixed priority order, the first whose keyword
set has any match wins, and the fallback is used when none matches. -/
def specSelectCategory (u : String) : Category :=
  (specPriority.find? (categoryMatches u)).getD Category.fallback

/-- The template belonging to each category. -/
def renderTemplate : Category → String → String
  | .programming, u => programmingTemplate u
  | .mathScience, u => mathScienceTemplate u
  | .business, u => businessTemplate u
  | .aiTech, u => aiTemplate u
  | .explanatory, u => explanatoryTemplate u
  | .designCreative, u => designTemplate u
  | .fallback, u => defaultTemplate u

theorem data_append (s t : String) : (s ++ t).data = s.data ++ t.data := rfl

theorem ne_empty_of_data (s : String) (h : s.data ≠ []) : s ≠ "" :=
  fun he => h (by rw [he])

theorem data_ne_nil_left (s t : String) (h : s.data ≠ []) : (s ++ t).data ≠ [] := by
  rw [data_append]
  intro hh
  exact h (List.append_eq_nil.mp hh).1

theorem firstMatches_self_append (l t : List Char) : firstMatches l (l ++ t) = true := by
  induction l with
  | nil => rfl
  | cons a as ih => simp [firstMatches, ih]

theorem occursIn_nil_pat (l : List Char) : occursIn ([] : List Char) l = true := by
  cases l <;> simp [occursIn, firstMatches]

theorem occursIn_of_firstMatches (pat l : List Char) (h : firstMatches pat l = true) :
    occursIn pat l = true := by
  cases l with
  | nil =>
    cases pat with
    | nil => rfl
    | cons a as => exact absurd h (by simp [firstMatches])
  | cons c rest => simp [occursIn, h]

theorem occursIn_suffix (pre pat : List Char) : occursIn pat (pre ++ pat) = true := by
  induction pre with
  | nil =>
    simpa using occursIn_of_firstMatches pat pat
      (by simpa using firstMatches_self_append pat [])
  | cons c pre ih => simp [occursIn, ih]

theorem firstMatches_append_right (pat s t : List Char) (h : firstMatches pat s = true) :
    firstMatches pat (s ++ t) = true := by
  induction pat generalizing s with
  | nil => rfl
  | cons a as ih =>
    cases s with
    | nil => exact absurd h (by simp [firstMatches])
    | cons b bs =>
      simp only [List.cons_append, firstMatches, Bool.and_eq_true] at h ⊢
      exact ⟨h.1, ih bs h.2⟩

theorem occursIn_append_right (pat s t : List Char) (h : occursIn pat s = true) :
    occursIn pat (s ++ t) = true := by
  induction s with
  | nil =>
    have hp : pat = [] := by
      cases pat with
      | nil => rfl
      | cons a as => simp [occursIn, List.isEmpty] at h
    subst hp
    exact occursIn_nil_pat t
  | cons c rest ih =>
    rw [List.cons_append]
    simp only [occursIn, Bool.or_eq_true] at h ⊢
    rcases h with h1 | h2
    · exact Or.inl (by
        have := firstMatches_append_right pat (c :: rest) t h1
        simpa using this)
    · exact Or.inr (ih h2)

theorem jsIncludes_embed_left (A u : String) : jsIncludes (A ++ u) u = true := by
  unfold jsIncludes
  rw [data_append]
  exact occursIn_suffix A.data u.data

theorem jsIncludes_append_right (s t u : String) (h : jsIncludes s u = true) :
    jsIncludes (s ++ t) u = true := by
  unfold jsIncludes at h ⊢
  rw [data_append]
  exact occursIn_append_right _ _ _ h

theorem firstMatches_eq_true_iff (pat l : List Char) :
    firstMatches pat l = true ↔ pat <+: l := by
  induction pat generalizing l with
  | nil => simp [firstMatches]
  | cons a as ih =>
    cases l with
    | nil => simp [firstMatches]
    | cons b bs => simp [firstMatches, List.cons_prefix_cons, ih]

theorem occursIn_eq_true_iff (pat l : List Char) :
    occursIn pat l = true ↔ pat <:+: l := by
  induction l with
  | nil => simp [occursIn, List.isEmpty_iff]
  | cons c rest ih => simp [occursIn, firstMatches_eq_true_iff, ih, List.infix_cons_iff]

theorem charDigit_digitChar : ∀ d : Fin 10, charDigit (digitChar d.val) = d.val := by
  decide

theorem digitChar_isDigit : ∀ d : Fin 10, isDigitChar (digitChar d.val) = true := by
  decide

theorem decode_natDecimal (t : Nat) : decodeDate (natDecimal t) = some t := by
  by_cases ht : t = 0
  · subst ht; decide
  · have hne : ((Nat.digits 10 t).map digitChar).reverse ≠ [] := by
      simp [Nat.digits_ne_nil_iff_ne_zero.mpr ht]
    have hall : (((Nat.digits 10 t).map digitChar).reverse).all isDigitChar = true := by
      rw [List.all_eq_true]
      intro c hc
      rw [List.mem_reverse, List.mem_map] at hc
      obtain ⟨d, hd, rfl⟩ := hc
      exact digitChar_isDigit ⟨d, Nat.digits_lt_base (by norm_num) hd⟩
    have hmap : ((((Nat.digits 10 t).map digitChar).reverse).map charDigit).reverse
        = Nat.digits 10 t := by
      rw [← List.map_reverse, List.reverse_reverse, List.map_map]
      have hcongr : ∀ d ∈ Nat.digits 10 t, (charDigit ∘ digitChar) d = id d := by
        intro d hd
        exact charDigit_digitChar ⟨d, Nat.digits_lt_base (by norm_num) hd⟩
      rw [List.map_congr_left hcongr, List.map_id]
    unfold natDecimal
    rw [if_neg ht]
    unfold decodeDate
    rw [show (String.mk (((Nat.digits 10 t).map digitChar).reverse)).data
        = ((Nat.digits 10 t).map digitChar).reverse from rfl]
    rw [if_pos (by simp [hne, hall, List.isEmpty_iff])]
    rw [hmap, Nat.ofDigits_digits]

theorem reviveElem_msgToJson (m : Message) :
    reviveElem (msgToJson m) = Except.ok (storedView m) := by
  show Except.ok
      { id := some (.str m.id), role := some (.str (roleToString m.role)),
        content := some (.str m.content),
        timestamp := decodeDate (natDecimal m.timestamp) }
    = Except.ok (storedView m)
  rw [decode_natDecimal]
  rfl

theorem mapM_reviveElem_msgToJson (ms : List Message) :
    (ms.map msgToJson).mapM reviveElem = Except.ok (ms.map storedView) := by
  induction ms with
  | nil => rfl
  | cons m rest ih =>
    rw [List.map_cons, List.mapM_cons, reviveElem_msgToJson m]
    show (List.map msgToJson rest).mapM reviveElem >>=
        (fun xs => pure (storedView m :: xs)) = _
    rw [ih]
    rfl

theorem loadMessages_stringify (ms : List Message) :
    loadMessages (some (stringifyMessages ms)) = Except.ok (ms.map storedView) := by
  unfold loadMessages stringifyMessages
  exact mapM_reviveElem_msgToJson ms

theorem appendMessage_messages (s : Store) (m : Message) :
    (appendMessage s m).messages = s.messages ++ [m] := by
  simp [appendMessage, persistEffect]

theorem appendMessage_storage (s : Store) (m : Message) :
    (appendMessage s m).storage = some (stringifyMessages (s.messages ++ [m])) := by
  simp [appendMessage, persistEffect]

theorem appendAll_messages (ms : List Message) (s : Store) :
    (appendAll s ms).messages = s.messages ++ ms := by
  induction ms generalizing s with
  | nil => simp [appendAll]
  | cons m rest ih =>
    show (appendAll (appendMessage s m) rest).messages = _
    rw [ih, appendMessage_messages, List.append_assoc]
    rfl

theorem appendAll_storage (ms : List Message) (s : Store) (h : ms ≠ []) :
    (appendAll s ms).storage = some (stringifyMessages ((appendAll s ms).messages)) := by
  induction ms generalizing s with
  | nil => exact absurd rfl h
  | cons m rest ih =>
    show (appendAll (appendMessage s m) rest).storage = _
    by_cases hr : rest = []
    · subst hr
      show (appendMessage s m).storage = _
      rw [appendMessage_storage, appendAll_messages]
    · rw [ih (appendMessage s m) hr]
      rfl

theorem progCond_eq (u : String) :
    progCond (jsToLowerCase u) = categoryMatches u Category.programming := by
  simp [progCond, categoryMatches, specKeywords, Bool.or_assoc]

theorem mathCond_eq (u : String) :
    mathCond (jsToLowerCase u) = categoryMatches u Category.mathScience := by
  simp [mathCond, categoryMatches, specKeywords, Bool.or_assoc]

theorem bizCond_eq (u : String) :
    bizCond (jsToLowerCase u) = categoryMatches u Category.business := by
  simp [bizCond, categoryMatches, specKeywords, Bool.or_assoc]

theorem aiCond_eq (u : String) :
    aiCond (jsToLowerCase u) = categoryMatches u Category.aiTech := by
  simp [aiCond, categoryMatches, specKeywords, Bool.or_assoc]

theorem explainCond_eq (u : String) :
    explainCond (jsToLowerCase u) = categoryMatches u Category.explanatory := by
  simp [explainCond, categoryMatches, specKeywords, Bool.or_assoc]

theorem designCond_eq (u : String) :
    designCond (jsToLowerCase u) = categoryMatches u Category.designCreative := by
  simp [designCond, categoryMatches, specKeywords, Bool.or_assoc]

/-- C1: the spec demands that loading the persisted chat-history value
fails gracefully on malformed data (empty sequence, no error to the
caller).  The code recovers like that only when the key is absent; for a
persisted value that is not an array of messages, the load effect throws
(there is no `try`/`catch` around `JSON.parse(...).map(...)`), so the
error propagates to the caller.  This theorem evaluates the load at the
failing input `"hello"` (a well-formed JSON string of the wrong shape). -/
theorem loadMalformedStoredValueThrows :
    loadMessages none = Except.ok [] ∧
    loadMessages (some (Json.str "hello"))
      = Except.error "TypeError: JSON.parse(savedMessages).map is not a function" :=
  ⟨rfl, rfl⟩

set_option maxRecDepth 8192 in
/-- C2: the response simulator lowercases the input and tests it against
the category keyword sets in the fixed priority order Programming,
Math/Science, Business/Strategy, AI/Technology, Explanatory,
Design/Creative; the first category with any keyword match determines the
returned template, the default template is returned iff no category
matches, and the input "explain the math behind this code" (containing
both "code" and "math") yields the Programming template. -/
theorem categorySelectionFixedPriority :
    (∀ u : String, simulateResponseText u = renderTemplate (specSelectCategory u) u) ∧
    (∀ u : String, specSelectCategory u = Category.fallback ↔
      ∀ c ∈ specPriority, categoryMatches u c = false) ∧
    simulateResponseText "explain the math behind this code"
      = programmingTemplate "explain the math behind this code" := by
  refine ⟨?_, ?_, ?_⟩
  · intro u
    by_cases h1 : progCond (jsToLowerCase u) = true
    · simp [simulateResponseText, specSelectCategory, specPriority, List.find?,
        renderTemplate, ← progCond_eq, ← mathCond_eq, ← bizCond_eq, ← aiCond_eq,
        ← explainCond_eq, ← designCond_eq, h1]
    · by_cases h2 : mathCond (jsToLowerCase u) = true
      · simp [simulateResponseText, specSelectCategory, specPriority, List.find?,
          renderTemplate, ← progCond_eq, ← mathCond_eq, ← bizCond_eq, ← aiCond_eq,
          ← explainCond_eq, ← designCond_eq, h1, h2]
      · by_cases h3 : bizCond (jsToLowerCase u) = true
        · simp [simulateResponseText, specSelectCategory, specPriority, List.find?,
            renderTemplate, ← progCond_eq, ← mathCond_eq, ← bizCond_eq, ← aiCond_eq,
            ← explainCond_eq, ← designCond_eq, h1, h2, h3]
        · by_cases h4 : aiCond (jsToLowerCase u) = true
          · simp [simulateResponseText, specSelectCategory, specPriority, List.find?,
              renderTemplate, ← progCond_eq, ← mathCond_eq, ← bizCond_eq, ← aiCond_eq,
              ← explainCond_eq, ← designCond_eq, h1, h2, h3, h4]
          · by_cases h5 : explainCond (jsToLowerCase u) = true
            · simp [simulateResponseText, specSelectCategory, specPriority, List.find?,
                renderTemplate, ← progCond_eq, ← mathCond_eq, ← bizCond_eq, ← aiCond_eq,
                ← explainCond_eq, ← designCond_eq, h1, h2, h3, h4, h5]
            · by_cases h6 : designCond (jsToLowerCase u) = true
              · simp [simulateResponseText, specSelectCategory, specPriority, List.find?,
                  renderTemplate, ← progCond_eq, ← mathCond_eq, ← bizCond_eq, ← aiCond_eq,
                  ← explainCond_eq, ← designCond_eq, h1, h2, h3, h4, h5, h6]
              · simp [simulateResponseText, specSelectCategory, specPriority, List.find?,
                  renderTemplate, ← progCond_eq, ← mathCond_eq, ← bizCond_eq, ← aiCond_eq,
                  ← explainCond_eq, ← designCond_eq, h1, h2, h3, h4, h5, h6]
  · intro u
    have key : specSelectCategory u = Category.fallback ↔
        List.find? (categoryMatches u) specPriority = none := by
      unfold specSelectCategory
      cases hfind : List.find? (categoryMatches u) specPriority with
      | none => simp
      | some c =>
        have hc : c ∈ specPriority := List.mem_of_find?_eq_some hfind
        simp only [Option.getD_some]
        constructor
        · intro hcf
          subst hcf
          exact absurd hc (by decide)
        · intro hnone
          cases hnone
    rw [key, List.find?_eq_none]
    simp
  · decide

/-- C3: after any non-empty sequence of appends, loading the persisted
chat-history value (parse, then convert each stored timestamp back to a
time value) yields exactly the stored view of the in-memory sequence at
the time of the last persistence write: same roles, contents and order,
with the millisecond timestamps recovered exactly. -/
theorem persistLoadRoundTrip (s : Store) (ms : List Message) (h : ms ≠ []) :
    loadMessages ((appendAll s ms).storage)
      = Except.ok (((appendAll s ms).messages).map storedView) := by
  rw [appendAll_storage ms s h, loadMessages_stringify]

/-- Witness for C3: the round trip evaluated after appending one concrete
message to the empty store. -/
theorem persistLoadRoundTrip_witness :
    (([{ id := "0", role := Role.user, content := "hi", timestamp := 0 }] : List Message) ≠ []) ∧
    loadMessages ((appendAll ⟨[], none, false, ""⟩
        [{ id := "0", role := Role.user, content := "hi", timestamp := 0 }]).storage)
      = Except.ok (((appendAll ⟨[], none, false, ""⟩
        [{ id := "0", role := Role.user, content := "hi", timestamp := 0 }]).messages).map storedView) :=
  ⟨List.cons_ne_nil _ _, persistLoadRoundTrip _ _ (List.cons_ne_nil _ _)⟩

/-- C4: after `clearChat` returns, from any state, the in-memory sequence
is empty and the persisted chat-history entry is removed, so a subsequent
load on a fresh instance observes an empty sequence. -/
theorem clearThenLoadObservesEmpty (s : Store) :
    (clearChat s).messages = [] ∧ (clearChat s).storage = none ∧
    loadMessages ((clearChat s).storage) = Except.ok [] :=
  ⟨rfl, rfl, rfl⟩

/-- C5: for every input text, the simulator's returned string is
non-empty, contains the original (non-lowercased) input verbatim at least
once, and is a deterministic function of the input text — the drawn
random sample influences only the delay, never the text. -/
theorem simulatedResponseEmbedsInput (u : String) (r1 r2 : ℚ) :
    (simulateAssistantResponse u r1).2 ≠ "" ∧
    jsIncludes (simulateAssistantResponse u r1).2 u = true ∧
    (simulateAssistantResponse u r1).2 = (simulateAssistantResponse u r2).2 := by
  refine ⟨?_, ?_, rfl⟩
  · show simulateResponseText u ≠ ""
    simp only [simulateResponseText, programmingTemplate, mathScienceTemplate,
      businessTemplate, aiTemplate, explanatoryTemplate, designTemplate, defaultTemplate]
    split_ifs <;>
      (apply ne_empty_of_data
       repeat apply data_ne_nil_left) <;>
      decide
  · show jsIncludes (simulateResponseText u) u = true
    simp only [simulateResponseText, programmingTemplate, mathScienceTemplate,
      businessTemplate, aiTemplate, explanatoryTemplate, designTemplate, defaultTemplate]
    split_ifs <;>
      exact jsIncludes_append_right _ _ _ (jsIncludes_embed_left _ _)

/-- C6: for every state whose trimmed input text is empty, the submit
handler is a no-op: the state is unchanged (no message appended, the
Awaiting-Response flag untouched) and the simulator is not invoked. -/
theorem blankSubmitIsNoOp (s : Store) (now : Nat) (h : jsTrim s.inputValue = "") :
    handleSendMessageStart s now = (s, none) := by
  simp [handleSendMessageStart, h]

/-- Witness for C6: a whitespace-only input field. -/
theorem blankSubmitIsNoOp_witness :
    jsTrim ((⟨[], none, false, "   "⟩ : Store).inputValue) = "" ∧
    handleSendMessageStart ⟨[], none, false, "   "⟩ 0 = (⟨[], none, false, "   "⟩, none) :=
  ⟨by decide, blankSubmitIsNoOp _ 0 (by decide)⟩

/-- C7: if the simulator throws during a submit-response cycle, the
failure is swallowed, no assistant message is appended, and the
Awaiting-Response flag is cleared, so the sequence after the failed cycle
is exactly the old sequence plus the one appended user message. -/
theorem simulatorFailureRecovery (s : Store) (now now2 : Nat)
    (h : jsTrim s.inputValue ≠ "") :
    (handleSendMessageStart s now).2 = some (jsTrim s.inputValue) ∧
    (handleSendMessageFinish (handleSendMessageStart s now).1 SimOutcome.failure now2).messages
      = s.messages ++ [{ id := natDecimal now, role := Role.user,
                         content := jsTrim s.inputValue, timestamp := now }] ∧
    (handleSendMessageFinish (handleSendMessageStart s now).1 SimOutcome.failure now2).isTyping
      = false := by
  refine ⟨?_, ?_, ?_⟩ <;>
    simp [handleSendMessageStart, handleSendMessageFinish, appendMessage, persistEffect, h]

/-- Witness for C7: a failed cycle on the concrete input "hi" from the
empty store. -/
theorem simulatorFailureRecovery_witness :
    jsTrim ((⟨[], none, false, "hi"⟩ : Store).inputValue) ≠ "" ∧
    ((handleSendMessageFinish (handleSendMessageStart ⟨[], none, false, "hi"⟩ 0).1
        SimOutcome.failure 1).messages
      = ([] : List Message) ++ [{ id := natDecimal 0, role := Role.user,
                                  content := jsTrim "hi", timestamp := 0 }] ∧
     (handleSendMessageFinish (handleSendMessageStart ⟨[], none, false, "hi"⟩ 0).1
        SimOutcome.failure 1).isTyping = false) :=
  ⟨by decide, (simulatorFailureRecovery ⟨[], none, false, "hi"⟩ 0 1 (by decide)).2⟩

/-- C8: whenever the Awaiting-Response flag is set, a submission attempt
at the input surface is a no-op — the disabled controls keep the handler
from running, the message sequence is unchanged, and no second simulation
is started. -/
theorem awaitingResponseBlocksSecondSubmit (s : Store) (now : Nat)
    (h : s.isTyping = true) :
    submitAttempt s now = (s, none) := by
  simp [submitAttempt, h]

/-- Witness for C8: a submission attempt while a response is in flight. -/
theorem awaitingResponseBlocksSecondSubmit_witness :
    ((⟨[], none, true, "hello"⟩ : Store).isTyping = true) ∧
    submitAttempt ⟨[], none, true, "hello"⟩ 0 = (⟨[], none, true, "hello"⟩, none) :=
  ⟨rfl, awaitingResponseBlocksSecondSubmit _ 0 rfl⟩

/-- C9: for every invocation of the simulator, the delay equals
`800 + r * 1500` milliseconds for the drawn sample `r`, and for any
`0 ≤ r < 1` it lies in the range `[800, 2300)`. -/
theorem simulatedDelayWithinRange (u : String) (r : ℚ) (h0 : 0 ≤ r) (h1 : r < 1) :
    (simulateAssistantResponse u r).1 = 800 + r * 1500 ∧
    800 ≤ (simulateAssistantResponse u r).1 ∧
    (simulateAssistantResponse u r).1 < 2300 := by
  refine ⟨rfl, ?_, ?_⟩
  · show (800 : ℚ) ≤ 800 + r * 1500
    nlinarith
  · show (800 : ℚ) + r * 1500 < 2300
    nlinarith

/-- Witness for C9: the delay bounds evaluated at the sample `r = 0`. -/
theorem simulatedDelayWithinRange_witness :
    ((0 : ℚ) ≤ 0 ∧ (0 : ℚ) < 1) ∧
    (800 ≤ (simulateAssistantResponse "hi" 0).1 ∧
     (simulateAssistantResponse "hi" 0).1 < 2300) :=
  ⟨⟨le_refl 0, zero_lt_one⟩, (simulatedDelayWithinRange "hi" 0 (le_refl 0) zero_lt_one).2⟩

/-- C10: keyword matching is raw substring containment on the lowercased
input, not word-boundary matching: whenever "ai" occurs anywhere inside
the lowercased text (also inside a longer word) and no keyword of a
higher-priority category occurs, the AI/Technology template is
selected. -/
theorem keywordMatchingIsRawSubstring (u : String)
    (hai : ("ai" : String).data <:+: (jsToLowerCase u).data)
    (hp : progCond (jsToLowerCase u) = false)
    (hm : mathCond (jsToLowerCase u) = false)
    (hb : bizCond (jsToLowerCase u) = false) :
    simulateResponseText u = aiTemplate u := by
  have hinc : jsIncludes (jsToLowerCase u) "ai" = true :=
    (occursIn_eq_true_iff _ _).mpr hai
  have ha : aiCond (jsToLowerCase u) = true := by simp [aiCond, hinc]
  simp [simulateResponseText, hp, hm, hb, ha]

/-- Witness for C10: the input "email" contains "ai" only inside a longer
word, and still selects the AI/Technology template. -/
theorem keywordMatchingIsRawSubstring_witness :
    (("ai" : String).data <:+: (jsToLowerCase "email").data ∧
     progCond (jsToLowerCase "email") = false ∧
     mathCond (jsToLowerCase "email") = false ∧
     bizCond (jsToLowerCase "email") = false) ∧
    simulateResponseText "email" = aiTemplate "email" :=
  ⟨⟨by decide, by decide, by decide, by decide⟩,
    keywordMatchingIsRawSubstring "email" (by decide) (by decide) (by decide) (by decide)⟩
